import Mathlib

/-!
Shallow embedding of `generate.py` from the scripted-regions repository,
together with theorems settling the frozen claims about its specification.

The script builds a SPARQL query from a Python `string.Template`
(`query_template.substitute(...)` is plain text substitution, embedded here
as string concatenation), downloads each query's result in two formats, and
appends one line per region to a manifest file `QUERIES.md`.
-/

namespace Regions

/-- Python `str.join`: `sep.join(xs)` — the elements joined with `sep`
between consecutive elements, `""` on the empty list. -/
def pyJoin (sep : String) : List String → String
  | [] => ""
  | [x] => x
  | x :: y :: t => x ++ sep ++ pyJoin sep (y :: t)

/-- `label_query_template` from generate.py:
`'  OPTIONAL { ?id1 rdfs:label ?label_$lang . FILTER(LANG(?label_$lang) = "$lang") }'`
with `$lang` substituted. -/
def label_query_template (lang : String) : String :=
  "  OPTIONAL \x7b ?id1 rdfs:label ?label_" ++ lang ++ " . FILTER(LANG(?label_" ++
    lang ++ ") = \"" ++ lang ++ "\") \x7d"

/-- `field_query_template` from generate.py:
`'  OPTIONAL { ?id1 wdt:$prop ?$var }'` with `$var` and `$prop` substituted. -/
def field_query_template (v prop : String) : String :=
  "  OPTIONAL \x7b ?id1 wdt:" ++ prop ++ " ?" ++ v ++ " \x7d"

/-- `var_out_template` from generate.py: `'  (SAMPLE(?$var) as ?$var)'`. -/
def var_out_template (v : String) : String :=
  "  (SAMPLE(?" ++ v ++ ") as ?" ++ v ++ ")"

/-- `condition_template` from generate.py: `'  FILTER($cond)'`. -/
def condition_template (cond : String) : String :=
  "  FILTER(" ++ cond ++ ")"

/-- The text of `query_template` up to and including the `$use_id2` slot and
the newline that follows it (the slots in order: `$outputVars`, `$outputs`,
`$entities`, `$depth`, `$use_id2`). -/
def queryFront (outputVars outputs entities depth use_id2 : String) : String :=
  "\n#defaultView:MapRegions\n# version 8\nSELECT\n  (if(bound(?id2),?id2,?id1) as ?id)\n  " ++
    outputVars ++
    "\nWHERE \x7b\n# Using nested query to ensure there is only one ?id2 value\n\x7bSELECT\n  ?id1\n  (SAMPLE(?id2) as ?id2)\n" ++
    outputs ++
    "\nWHERE \x7b\n  # List of regions, whose sub-regions we want.\n  VALUES ?entity \x7b " ++
    entities ++
    " \x7d\n\n  # P150 = \"contains administrative territorial entity\"\n" ++
    "  ?entity " ++ depth ++ " ?id1 ." ++ "\n\n" ++
    use_id2 ++ "\n"

/-- The text of `query_template` after the `$fields` slot. -/
def querySuffix : String :=
  "\n\x7d\n# remove possible ID duplicates\nGROUP BY ?id1\x7d\n\x7d\n"

/-- `query_template.substitute(...)` from generate.py: the full template text
with all eight `$`-slots substituted.  The template places `$condition` on the
line after `$use_id2` and before the `$labels` and `$fields` slots. -/
def query_template (outputVars outputs entities depth use_id2 condition labels fields : String) :
    String :=
  queryFront outputVars outputs entities depth use_id2 ++
    condition ++ "\n" ++ labels ++ "\n" ++ fields ++ querySuffix

/-- The `entities` argument of `sparql`: Python accepts either a single
string or a list of strings. -/
inductive Entities where
  | str (s : String)
  | list (l : List String)

/-- The normalisation `if type(entities) == type(''): entities = [entities]`
performed at the top of `sparql`. -/
def Entities.toList : Entities → List String
  | .str s => [s]
  | .list l => l

/-- `outputVars = list(fields.keys()) + ['label_' + v for v in labels]`
(a Python dict iterates in insertion order, embedded as an association list). -/
def outputVarsOf (labels : List String) (fields : List (String × String)) : List String :=
  fields.map Prod.fst ++ labels.map (fun v => "label_" ++ v)

/-- The `outputVars=' '.join(['?' + v for v in outputVars])` argument. -/
def outputVarsStr (labels : List String) (fields : List (String × String)) : String :=
  pyJoin " " ((outputVarsOf labels fields).map (fun v => "?" ++ v))

/-- The `outputs='\n'.join([var_out_template.substitute(...) ...])` argument. -/
def outputsStr (labels : List String) (fields : List (String × String)) : String :=
  pyJoin "\n" ((outputVarsOf labels fields).map var_out_template)

/-- The `entities=' '.join(['wd:' + e for e in entities])` argument. -/
def entitiesStr (e : Entities) : String :=
  pyJoin " " (e.toList.map (fun x => "wd:" ++ x))

/-- The `depth='/'.join(['wdt:P150' for i in range(depth)])` argument. -/
def depthStr (depth : Nat) : String :=
  pyJoin "/" (List.replicate depth "wdt:P150")

/-- The `labels='\n'.join([label_query_template.substitute({'lang': l}) for l in labels])`
argument. -/
def labelsBlock (labels : List String) : String :=
  pyJoin "\n" (labels.map label_query_template)

/-- The `fields='\n'.join([field_query_template.substitute({'var': k, 'prop': v}) for k,v in fields.items()])`
argument. -/
def fieldsBlock (fields : List (String × String)) : String :=
  pyJoin "\n" (fields.map (fun p => field_query_template p.1 p.2))

/-- The `condition='' if not condition else condition_template.substitute({'cond': condition})`
argument.  The Python default is `False` and the test is truthiness, so both
an absent condition (`none`, embedding `False`/`None`) and the empty string
produce the empty clause. -/
def conditionClause : Option String → String
  | none => ""
  | some c => if c = "" then "" else condition_template c

/-- The `use_id2='\n'.join(id2_generator)` argument. -/
def id2Str (id2_generator : List String) : String :=
  pyJoin "\n" id2_generator

/-- `sparql(entities, labels, fields, depth, condition, id2_generator)` from
generate.py: normalises `entities`, computes `outputVars`, and substitutes all
eight slots of `query_template`. -/
def sparql (entities : Entities) (labels : List String) (fields : List (String × String))
    (depth : Nat) (condition : Option String) (id2_generator : List String) : String :=
  query_template (outputVarsStr labels fields) (outputsStr labels fields)
    (entitiesStr entities) (depthStr depth) (id2Str id2_generator)
    (conditionClause condition) (labelsBlock labels) (fieldsBlock fields)

/-- An HTTP response as seen by `run_query`: status code and body text. -/
structure Response where
  status : Nat
  text : String

/-- `requests.Response.raise_for_status()`: raises `HTTPError` exactly when
the status code is a client error (4xx) or server error (5xx), i.e.
`400 <= status < 600`; all other statuses (including 1xx/3xx) pass. -/
def raise_for_status (r : Response) : Except Nat Unit :=
  if 400 ≤ r.status ∧ r.status < 600 then Except.error r.status else Except.ok ()

/-- Observable effects of a run: the downloaded files written so far (path and
content, in write order) and the lines appended to the manifest `QUERIES.md`. -/
structure RunState where
  files : List (String × String)
  manifest : List String

/-- `filepath(*values)`: `os.path.join` of the script's directory (`base`)
with the given relative components. -/
def filepath (base : String) (values : List String) : String :=
  pyJoin "/" (base :: values)

/-- The request URL built in `run_query`:
`'https://sophox.org/regions/{0}.json?sparql={1}'.format(filetype, quote(query))`,
with `urllib.parse.quote` passed in as the escaping function `quote`. -/
def regionUrl (quote : String → String) (filetype query : String) : String :=
  "https://sophox.org/regions/" ++ filetype ++ ".json?sparql=" ++ quote query

/-- `run_query(filetype, name, query)` from generate.py: issue the request,
call `raise_for_status` (an error propagates, carrying the state unchanged —
the file write comes only after the check), then write the response body to
`filepath(filetype, name + '.' + filetype)`. -/
def run_query (quote : String → String) (fetch : String → Response) (base : String)
    (filetype name query : String) (st : RunState) : Except (Nat × RunState) RunState :=
  let response := fetch (regionUrl quote filetype query)
  match raise_for_status response with
  | Except.error e => Except.error (e, st)
  | Except.ok _ =>
      Except.ok ⟨st.files ++ [(filepath base [filetype, name ++ "." ++ filetype], response.text)],
                 st.manifest⟩

/-- `append_queries_md(text)`: append `text` to the manifest `QUERIES.md`. -/
def append_queries_md (text : String) (st : RunState) : RunState :=
  ⟨st.files, st.manifest ++ [text]⟩

/-- `gen(name, query)` from generate.py: append one manifest line for the
query, then download it as topojson and as geojson (an error in either
download propagates). -/
def gen (quote : String → String) (fetch : String → Response) (base : String)
    (name query : String) (st : RunState) : Except (Nat × RunState) RunState :=
  let st1 := append_queries_md
    ("* [" ++ name ++ "](https://sophox.org/sophox/#" ++ quote query ++ ")\n") st
  match run_query quote fetch base "topojson" name query st1 with
  | Except.error e => Except.error e
  | Except.ok st2 => run_query quote fetch base "geojson" name query st2

/-- Outcome of the `os.remove` call on the manifest at process start. -/
inductive FsError where
  | notFound
  | other (msg : String)
deriving DecidableEq

/-- The manifest-deletion step at the top of `__main__`:
`try: remove(filepath('QUERIES.md')) except: raise`.
The bare `except:` catches every exception and `raise` re-raises it
unchanged, so every error of the underlying `remove` propagates. -/
def deleteManifest (removeOutcome : Except FsError Unit) : Except FsError Unit :=
  match removeOutcome with
  | Except.ok u => Except.ok u
  | Except.error e => Except.error e

/-- Modelled from the spec: the deletion step as the specification describes
it — a filesystem "not found" error during manifest deletion is expected and
suppressed, any other error propagates.  (The suppression branch is what the
`try/except` in `__main__` was evidently meant to implement.) -/
def deleteManifestSpec (removeOutcome : Except FsError Unit) : Except FsError Unit :=
  match removeOutcome with
  | Except.ok u => Except.ok u
  | Except.error FsError.notFound => Except.ok ()
  | Except.error e => Except.error e

/-- Follows the spec's words for the depth claim: the containment property
`wdt:P150` composed `d` times in sequence into one property path. -/
def specDepthPath : Nat → String
  | 0 => ""
  | 1 => "wdt:P150"
  | n + 2 => "wdt:P150" ++ "/" ++ specDepthPath (n + 1)

/-- Number of (possibly overlapping) occurrences of `needle` as a contiguous
segment of `hay`. -/
def occCount (needle : List Char) : List Char → Nat
  | [] => 0
  | c :: rest =>
      (if List.isPrefixOf needle (c :: rest) then 1 else 0) + occCount needle rest

/-- Index of the first occurrence of `needle` as a contiguous segment of
`hay`, if any. -/
def firstOcc (needle : List Char) : List Char → Option Nat
  | [] => none
  | c :: rest =>
      if List.isPrefixOf needle (c :: rest) then some 0
      else Option.map Nat.succ (firstOcc needle rest)

/-- `occursBefore n1 n2 hay` holds when both needles occur in `hay` and the
first occurrence of `n1` strictly precedes the first occurrence of `n2`. -/
def occursBefore (n1 n2 hay : List Char) : Bool :=
  match firstOcc n1 hay, firstOcc n2 hay with
  | some i, some j => decide (i < j)
  | _, _ => false

theorem sparql_decomp (e : Entities) (ls : List String) (fs : List (String × String))
    (d : Nat) (c : Option String) (g : List String) :
    sparql e ls fs d c g =
      queryFront (outputVarsStr ls fs) (outputsStr ls fs) (entitiesStr e) (depthStr d)
          (id2Str g) ++
        conditionClause c ++ "\n" ++ labelsBlock ls ++ "\n" ++ fieldsBlock fs ++ querySuffix :=
  rfl

theorem depthStr_spec (d : Nat) : depthStr d = specDepthPath d := by
  induction d with
  | zero => rfl
  | succ n ih =>
    cases n with
    | zero => rfl
    | succ m =>
      have h1 : depthStr (m + 2) = "wdt:P150" ++ "/" ++ depthStr (m + 1) := by
        show pyJoin "/" (List.replicate (m + 2) "wdt:P150") = _
        rw [List.replicate_succ, List.replicate_succ]
        show pyJoin "/" ("wdt:P150" :: "wdt:P150" :: List.replicate m "wdt:P150") = _
        rw [pyJoin, ← List.replicate_succ]
        rfl
      rw [h1, ih]
      rfl

set_option maxRecDepth 80000 in
/-- **C1** (as stated, counterexample).  With the us_states inputs — entities
`'Q30'`, languages `['en']`, fields `{'iso_3166_2': 'P300'}`, depth 1 and the
FIPS condition — the condition's FILTER clause occurs exactly once in the
generated query, and that single occurrence comes strictly *before* the first
optional label clause and strictly *before* the first optional field clause;
so the FILTER clause does not appear after the label and field binding
clauses, contrary to the claim. -/
theorem C1_counterexample :
    occCount ("\n  FILTER(").data
        ((sparql (Entities.str "Q30") ["en"] [("iso_3166_2", "P300")] 1
          (some "!BOUND(?fips_5_2_alpha) || REGEX(?fips_5_2_alpha, \"[A-Z]\x7b2\x7d\")") []).data) = 1 ∧
    occursBefore ("\n  FILTER(").data ("  OPTIONAL \x7b ?id1 rdfs:label").data
        ((sparql (Entities.str "Q30") ["en"] [("iso_3166_2", "P300")] 1
          (some "!BOUND(?fips_5_2_alpha) || REGEX(?fips_5_2_alpha, \"[A-Z]\x7b2\x7d\")") []).data) = true ∧
    occursBefore ("\n  FILTER(").data ("  OPTIONAL \x7b ?id1 wdt:").data
        ((sparql (Entities.str "Q30") ["en"] [("iso_3166_2", "P300")] 1
          (some "!BOUND(?fips_5_2_alpha) || REGEX(?fips_5_2_alpha, \"[A-Z]\x7b2\x7d\")") []).data) = true :=
  ⟨rfl, rfl, rfl⟩

/-- **C1** (amended).  For every call with a non-empty condition string the
emitted FILTER clause appears in the generated query immediately after the
id2-generator slot and *before* the optional label and field binding clauses;
and for every call where the condition is absent the condition slot of the
query is empty (no condition FILTER clause is emitted). -/
theorem C1_condition_before_bindings (e : Entities) (ls : List String)
    (fs : List (String × String)) (d : Nat) (g : List String) (c : String)
    (hc : c ≠ "") :
    sparql e ls fs d (some c) g =
      queryFront (outputVarsStr ls fs) (outputsStr ls fs) (entitiesStr e) (depthStr d)
          (id2Str g) ++
        condition_template c ++ "\n" ++ labelsBlock ls ++ "\n" ++ fieldsBlock fs ++
        querySuffix ∧
    sparql e ls fs d none g =
      queryFront (outputVarsStr ls fs) (outputsStr ls fs) (entitiesStr e) (depthStr d)
          (id2Str g) ++
        "" ++ "\n" ++ labelsBlock ls ++ "\n" ++ fieldsBlock fs ++ querySuffix := by
  refine ⟨?_, sparql_decomp e ls fs d none g⟩
  rw [sparql_decomp]
  simp only [conditionClause, if_neg hc]

/-- Witness for C1: the amended statement at the us_states-like inputs. -/
theorem C1_condition_before_bindings_witness :
    sparql (Entities.str "Q30") ["en"] [("iso_3166_2", "P300")] 1 (some "?x") [] =
      queryFront (outputVarsStr ["en"] [("iso_3166_2", "P300")])
          (outputsStr ["en"] [("iso_3166_2", "P300")]) (entitiesStr (Entities.str "Q30"))
          (depthStr 1) (id2Str []) ++
        condition_template "?x" ++ "\n" ++ labelsBlock ["en"] ++ "\n" ++
        fieldsBlock [("iso_3166_2", "P300")] ++ querySuffix ∧
    sparql (Entities.str "Q30") ["en"] [("iso_3166_2", "P300")] 1 none [] =
      queryFront (outputVarsStr ["en"] [("iso_3166_2", "P300")])
          (outputsStr ["en"] [("iso_3166_2", "P300")]) (entitiesStr (Entities.str "Q30"))
          (depthStr 1) (id2Str []) ++
        "" ++ "\n" ++ labelsBlock ["en"] ++ "\n" ++
        fieldsBlock [("iso_3166_2", "P300")] ++ querySuffix :=
  C1_condition_before_bindings (Entities.str "Q30") ["en"] [("iso_3166_2", "P300")] 1 []
    "?x" (by decide)

/-- **C2**.  The manifest-deletion step in `__main__` is a bare
`try: remove(...) except: raise`, which re-raises *every* error of `remove`,
including the "file not found" one; the spec's described behaviour (suppress
"not found", recreate the manifest) is what `deleteManifestSpec` does, and the
two disagree exactly on the not-found outcome.  So when the manifest file is
absent at process start the run aborts instead of continuing. -/
theorem C2_bare_except_reraises_notFound :
    deleteManifest (Except.error FsError.notFound) = Except.error FsError.notFound ∧
    deleteManifestSpec (Except.error FsError.notFound) = Except.ok () ∧
    (∀ o : Except FsError Unit, deleteManifest o = o) :=
  ⟨rfl, rfl, fun o => by cases o <;> rfl⟩

/-- **C3**.  For every positive depth `d`, the generated query contains the
traversal clause `  ?entity <path> ?id1 .` whose property path is
`'/'.join(d copies of 'wdt:P150')`, and that path equals the `d`-fold
sequential composition `specDepthPath d` of the containment property
(`d` occurrences of `wdt:P150` joined by `/` into one property path). -/
theorem C3_depth_composes_d_times (d : Nat) (hd : 1 ≤ d) (e : Entities)
    (ls : List String) (fs : List (String × String)) (c : Option String)
    (g : List String) :
    (∃ A B, sparql e ls fs d c g = A ++ ("  ?entity " ++ depthStr d ++ " ?id1 .") ++ B) ∧
    depthStr d = specDepthPath d ∧
    (List.replicate d "wdt:P150").length = d := by
  refine ⟨?_, depthStr_spec d, by simp⟩
  refine ⟨"\n#defaultView:MapRegions\n# version 8\nSELECT\n  (if(bound(?id2),?id2,?id1) as ?id)\n  " ++
      outputVarsStr ls fs ++
      "\nWHERE \x7b\n# Using nested query to ensure there is only one ?id2 value\n\x7bSELECT\n  ?id1\n  (SAMPLE(?id2) as ?id2)\n" ++
      outputsStr ls fs ++
      "\nWHERE \x7b\n  # List of regions, whose sub-regions we want.\n  VALUES ?entity \x7b " ++
      entitiesStr e ++
      " \x7d\n\n  # P150 = \"contains administrative territorial entity\"\n",
    "\n\n" ++ id2Str g ++ "\n" ++ conditionClause c ++ "\n" ++ labelsBlock ls ++ "\n" ++
      fieldsBlock fs ++ querySuffix, ?_⟩
  rw [sparql_decomp]
  simp only [queryFront, String.append_assoc]

/-- Witness for C3 at depth 2 (the us_counties call). -/
theorem C3_depth_composes_d_times_witness :
    (∃ A B, sparql (Entities.str "Q30") ["en"]
        [("fips_6_4_alpha", "P882"), ("gnis", "P590"), ("viaf", "P214")] 2 none
        ["OPTIONAL \x7b ?id1 wdt:P3403 ?id2 . \x7d"] =
      A ++ ("  ?entity " ++ depthStr 2 ++ " ?id1 .") ++ B) ∧
    depthStr 2 = specDepthPath 2 ∧
    (List.replicate 2 "wdt:P150").length = 2 :=
  C3_depth_composes_d_times 2 (by decide) (Entities.str "Q30") ["en"]
    [("fips_6_4_alpha", "P882"), ("gnis", "P590"), ("viaf", "P214")] none
    ["OPTIONAL \x7b ?id1 wdt:P3403 ?id2 . \x7d"]

/-- **C4**.  For every language list, the generated query contains (inside the
outer `SELECT`, right after the fixed header) the output-variable list, which
is built from exactly one variable `label_l` per language `l` (after the field
variables); and it contains the label block, which is exactly one
`label_query_template` clause per language joined by newlines, each clause
filtering on that exact language tag by construction of
`label_query_template`. -/
theorem C4_one_label_clause_per_language (e : Entities) (ls : List String)
    (fs : List (String × String)) (d : Nat) (c : Option String) (g : List String) :
    (∃ B, sparql e ls fs d c g =
        "\n#defaultView:MapRegions\n# version 8\nSELECT\n  (if(bound(?id2),?id2,?id1) as ?id)\n  " ++
          outputVarsStr ls fs ++ B) ∧
    (∃ A B, sparql e ls fs d c g = A ++ labelsBlock ls ++ B) ∧
    labelsBlock ls = pyJoin "\n" (ls.map label_query_template) ∧
    (ls.map label_query_template).length = ls.length ∧
    outputVarsStr ls fs =
      pyJoin " " ((fs.map Prod.fst ++ ls.map (fun v => "label_" ++ v)).map
        (fun v => "?" ++ v)) ∧
    (ls.map (fun v => "label_" ++ v)).length = ls.length := by
  refine ⟨⟨?_, ?_⟩, ⟨?_, ?_, ?_⟩, rfl, by simp, rfl, by simp⟩
  · exact "\nWHERE \x7b\n# Using nested query to ensure there is only one ?id2 value\n\x7bSELECT\n  ?id1\n  (SAMPLE(?id2) as ?id2)\n" ++
      outputsStr ls fs ++
      "\nWHERE \x7b\n  # List of regions, whose sub-regions we want.\n  VALUES ?entity \x7b " ++
      entitiesStr e ++
      " \x7d\n\n  # P150 = \"contains administrative territorial entity\"\n" ++
      "  ?entity " ++ depthStr d ++ " ?id1 ." ++ "\n\n" ++ id2Str g ++ "\n" ++
      conditionClause c ++ "\n" ++ labelsBlock ls ++ "\n" ++ fieldsBlock fs ++ querySuffix
  · rw [sparql_decomp]
    simp only [queryFront, String.append_assoc]
  · exact queryFront (outputVarsStr ls fs) (outputsStr ls fs) (entitiesStr e) (depthStr d)
      (id2Str g) ++ conditionClause c ++ "\n"
  · exact "\n" ++ fieldsBlock fs ++ querySuffix
  · rw [sparql_decomp]
    simp only [String.append_assoc]

/-- **C5**.  For every field mapping, the generated query contains (inside
the outer `SELECT`, right after the fixed header) the output-variable list,
which is built from exactly one variable per field entry (the entry's key,
before the label variables); and it contains the field block, which is
exactly one `field_query_template` clause per entry joined by newlines, each
clause using the entry's key as variable name and the entry's value as
property identifier by construction of `field_query_template`. -/
theorem C5_one_field_clause_per_entry (e : Entities) (ls : List String)
    (fs : List (String × String)) (d : Nat) (c : Option String) (g : List String) :
    (∃ B, sparql e ls fs d c g =
        "\n#defaultView:MapRegions\n# version 8\nSELECT\n  (if(bound(?id2),?id2,?id1) as ?id)\n  " ++
          outputVarsStr ls fs ++ B) ∧
    (∃ A B, sparql e ls fs d c g = A ++ fieldsBlock fs ++ B) ∧
    fieldsBlock fs = pyJoin "\n" (fs.map (fun p => field_query_template p.1 p.2)) ∧
    (fs.map (fun p => field_query_template p.1 p.2)).length = fs.length ∧
    outputVarsStr ls fs =
      pyJoin " " ((fs.map Prod.fst ++ ls.map (fun v => "label_" ++ v)).map
        (fun v => "?" ++ v)) ∧
    (fs.map Prod.fst).length = fs.length := by
  refine ⟨⟨?_, ?_⟩, ⟨?_, ?_, ?_⟩, rfl, by simp, rfl, by simp⟩
  · exact "\nWHERE \x7b\n# Using nested query to ensure there is only one ?id2 value\n\x7bSELECT\n  ?id1\n  (SAMPLE(?id2) as ?id2)\n" ++
      outputsStr ls fs ++
      "\nWHERE \x7b\n  # List of regions, whose sub-regions we want.\n  VALUES ?entity \x7b " ++
      entitiesStr e ++
      " \x7d\n\n  # P150 = \"contains administrative territorial entity\"\n" ++
      "  ?entity " ++ depthStr d ++ " ?id1 ." ++ "\n\n" ++ id2Str g ++ "\n" ++
      conditionClause c ++ "\n" ++ labelsBlock ls ++ "\n" ++ fieldsBlock fs ++ querySuffix
  · rw [sparql_decomp]
    simp only [queryFront, String.append_assoc]
  · exact queryFront (outputVarsStr ls fs) (outputsStr ls fs) (entitiesStr e) (depthStr d)
      (id2Str g) ++ conditionClause c ++ "\n" ++ labelsBlock ls ++ "\n"
  · exact querySuffix
  · rw [sparql_decomp]

/-- **C6** (as stated, counterexample).  A non-2xx response does not always
abort: `requests`' `raise_for_status` raises only for 4xx/5xx statuses, so on
a 304 response `run_query` passes the status check and writes the response
body to the entry's file. -/
theorem C6_counterexample :
    run_query (fun s => s) (fun _ => ⟨304, "stale body"⟩) "base" "topojson" "canada" "Q"
        ⟨[], []⟩ =
      Except.ok ⟨[("base/topojson/canada.topojson", "stale body")], []⟩ :=
  rfl

/-- **C6** (amended).  If the response status is an HTTP error (4xx or 5xx),
`run_query` propagates the error raised by `raise_for_status` immediately:
the run aborts with no retry, and the state is returned unchanged — in
particular no file (not even a partial one) is written for that entry,
because the status check precedes the file write. -/
theorem C6_http_error_aborts (quote : String → String) (fetch : String → Response)
    (base filetype name query : String) (st : RunState)
    (h4 : 400 ≤ (fetch (regionUrl quote filetype query)).status)
    (h6 : (fetch (regionUrl quote filetype query)).status < 600) :
    run_query quote fetch base filetype name query st =
      Except.error ((fetch (regionUrl quote filetype query)).status, st) := by
  unfold run_query raise_for_status
  simp [h4, h6]

/-- Witness for C6: a 404 response aborts with the state unchanged. -/
theorem C6_http_error_aborts_witness :
    run_query (fun s => s) (fun _ => ⟨404, "not found"⟩) "base" "topojson" "canada" "Q"
        ⟨[("old", "x")], ["m"]⟩ =
      Except.error
        (((fun (_ : String) => (⟨404, "not found"⟩ : Response))
            (regionUrl (fun s => s) "topojson" "Q")).status,
          ⟨[("old", "x")], ["m"]⟩) :=
  C6_http_error_aborts (fun s => s) (fun _ => ⟨404, "not found"⟩) "base" "topojson"
    "canada" "Q" ⟨[("old", "x")], ["m"]⟩ (by decide) (by decide)

/-- **C7**.  In a successful run (both downloads pass the status check),
`gen` for one Region Request appends exactly one manifest line and writes
exactly two files — `topojson/{name}.topojson` and `geojson/{name}.geojson`
under the script directory — and the manifest line and both requests are all
built from the same single query string. -/
theorem C7_two_artifacts_one_manifest_entry (quote : String → String)
    (fetch : String → Response) (base name query : String) (st : RunState)
    (hT : raise_for_status (fetch (regionUrl quote "topojson" query)) = Except.ok ())
    (hG : raise_for_status (fetch (regionUrl quote "geojson" query)) = Except.ok ()) :
    gen quote fetch base name query st =
      Except.ok
        ⟨st.files ++
            [(filepath base ["topojson", name ++ "." ++ "topojson"],
                (fetch (regionUrl quote "topojson" query)).text),
             (filepath base ["geojson", name ++ "." ++ "geojson"],
                (fetch (regionUrl quote "geojson" query)).text)],
          st.manifest ++
            ["* [" ++ name ++ "](https://sophox.org/sophox/#" ++ quote query ++ ")\n"]⟩ := by
  unfold gen run_query append_queries_md
  simp only [hT, hG]
  simp [List.append_assoc]

/-- Witness for C7 at concrete inputs with a successful fetch oracle. -/
theorem C7_two_artifacts_one_manifest_entry_witness :
    gen (fun s => s) (fun _ => ⟨200, "body"⟩) "base" "canada" "Q" ⟨[], []⟩ =
      Except.ok
        ⟨([] : List (String × String)) ++
            [(filepath "base" ["topojson", "canada" ++ "." ++ "topojson"],
                ((fun (_ : String) => (⟨200, "body"⟩ : Response))
                  (regionUrl (fun s => s) "topojson" "Q")).text),
             (filepath "base" ["geojson", "canada" ++ "." ++ "geojson"],
                ((fun (_ : String) => (⟨200, "body"⟩ : Response))
                  (regionUrl (fun s => s) "geojson" "Q")).text)],
          ([] : List String) ++
            ["* [" ++ "canada" ++ "](https://sophox.org/sophox/#" ++
              (fun (s : String) => s) "Q" ++ ")\n"]⟩ :=
  C7_two_artifacts_one_manifest_entry (fun s => s) (fun _ => ⟨200, "body"⟩) "base"
    "canada" "Q" ⟨[], []⟩ rfl rfl

/-- **C8**.  Passing a single string as `entities` produces exactly the same
query string as passing the one-element list containing it, all other
arguments held fixed: the builder normalises a string argument to a
one-element list before any other processing. -/
theorem C8_string_equals_singleton_list (s : String) (ls : List String)
    (fs : List (String × String)) (d : Nat) (c : Option String) (g : List String) :
    sparql (Entities.str s) ls fs d c g = sparql (Entities.list [s]) ls fs d c g :=
  rfl

/-- **C9**.  The builder is deterministic: two calls with identical inputs
produce identical query strings (the embedding of `sparql` is a pure function
of its six arguments, with no other state). -/
theorem C9_deterministic (e1 e2 : Entities) (ls1 ls2 : List String)
    (fs1 fs2 : List (String × String)) (d1 d2 : Nat) (c1 c2 : Option String)
    (g1 g2 : List String)
    (h : e1 = e2 ∧ ls1 = ls2 ∧ fs1 = fs2 ∧ d1 = d2 ∧ c1 = c2 ∧ g1 = g2) :
    sparql e1 ls1 fs1 d1 c1 g1 = sparql e2 ls2 fs2 d2 c2 g2 := by
  obtain ⟨h1, h2, h3, h4, h5, h6⟩ := h
  rw [h1, h2, h3, h4, h5, h6]

/-- Witness for C9 at the canada inputs. -/
theorem C9_deterministic_witness :
    sparql (Entities.str "Q16") ["en", "fr"] [("iso_3166_2", "P300")] 1 none [] =
      sparql (Entities.str "Q16") ["en", "fr"] [("iso_3166_2", "P300")] 1 none [] :=
  C9_deterministic (Entities.str "Q16") (Entities.str "Q16") ["en", "fr"] ["en", "fr"]
    [("iso_3166_2", "P300")] [("iso_3166_2", "P300")] 1 1 none none [] []
    ⟨rfl, rfl, rfl, rfl, rfl, rfl⟩

/-- **C10**.  A falsy condition is treated identically to an absent one: the
builder's default is `False` and the emission test is truthiness
(`'' if not condition else ...`), so with the empty string as condition the
generated query is byte-identical to the one generated with the condition
absent, and in both cases the condition slot is the empty string (no
condition FILTER clause is emitted). -/
theorem C10_falsy_condition_no_filter (e : Entities) (ls : List String)
    (fs : List (String × String)) (d : Nat) (g : List String) :
    sparql e ls fs d (some "") g = sparql e ls fs d none g ∧
    conditionClause (some "") = "" ∧ conditionClause none = "" :=
  ⟨rfl, rfl, rfl⟩

end Regions
